import Mathlib

/-!
Shallow embedding of the `omega` repository (src/main.py, src/video_utils.py).

The two Python files orchestrate: search a video platform, download a bounded
clip of each candidate, synthesize a description, embed, and collect
`VideoMetadata` records.  External collaborators (the yt-dlp search/download
provider, the ImageBind embedding model, and the wall clock) are modelled as
explicit outcome parameters passed into the embedded functions; everything the
repository's own code does is translated directly from the source.

Counts are modelled as naturals and seconds/timestamps as integers: every
numeric value the claims touch is integral (`MAX_DURATION = 120`, candidate
durations, `time.time()` treated at whole-second granularity).  For a natural
target count `n`, Python's `int(n * 1.5)` is exact IEEE arithmetic followed by
truncation toward zero, i.e. `3 * n / 2` in natural division.
-/

/-- `MAX_DURATION = 120  # two minutes` (video_utils.py line 8). -/
def MAX_DURATION : Int := 120

/-- A raw entry of the search provider's response (`result["entries"]`):
the fields the list comprehension in `search_videos` reads.  `duration` and
`view_count` are read with `.get`, so they may be absent (`none`). -/
structure RawEntry where
  id : String
  title : String
  description : Option String
  duration : Option Int
  view_count : Option Int
deriving DecidableEq

/-- `class YoutubeResult(BaseModel)` (video_utils.py lines 11-16). -/
structure YoutubeResult where
  video_id : String
  title : String
  description : Option String
  length : Int
  views : Int
deriving DecidableEq

/-- Python truthiness of an optional integer: `None` and `0` are falsy. -/
def truthyInt : Option Int → Bool
  | none => false
  | some n => n != 0

/-- The body of the list comprehension in `search_videos` (lines 59-65):
`length=(int(entry.get("duration")) if entry.get("duration") else MAX_DURATION)`
and `views=(entry.get("view_count") if entry.get("view_count") else 0)`. -/
def toYoutubeResult (entry : RawEntry) : YoutubeResult :=
  { video_id := entry.id
    title := entry.title
    description := entry.description
    length := if truthyInt entry.duration then entry.duration.getD 0 else MAX_DURATION
    views := if truthyInt entry.view_count then entry.view_count.getD 0 else 0 }

/-- What `ydl.extract_info` does for a given query is external: either it
returns a list of raw entries (missing or falsy `"entries"` is the empty
list), or it raises. -/
inductive SearchOutcome where
  | ok (entries : List RawEntry)
  | raise (msg : String)
deriving DecidableEq

/-- `search_videos` (video_utils.py lines 43-70): on a provider exception the
`except` clause returns `[]`; otherwise the entries are mapped through the
comprehension.  `query` and `max_results` only shape the request string, not
the handling of the reply. -/
def search_videos (query : String) (max_results : Nat) (outcome : SearchOutcome) :
    List YoutubeResult :=
  let _ := query
  let _ := max_results
  match outcome with
  | .ok entries => entries.map toYoutubeResult
  | .raise _ => []

/-- `is_valid_id` (video_utils.py lines 19-20):
`youtube_id is not None and len(youtube_id) == 11`.  The argument is optional
to model an absent (`None`) identifier. -/
def is_valid_id (youtube_id : Option String) : Bool :=
  match youtube_id with
  | none => false
  | some s => s.length == 11

/-- Python's `pat in msg` substring test. -/
def containsSub (msg pat : String) : Bool := decide (pat.data <:+: msg.data)

/-- The two blocking / format phrases checked first in `download_video`
(lines 110-113). -/
def isBlockedMsg (msg : String) : Bool :=
  containsSub msg "Your IP is likely being blocked by Youtube" ||
  containsSub msg "Requested format is not available"

/-- `fake_vid_msg` phrases (lines 115-116). -/
def fake_vid_msgs : List String :=
  ["Video unavailable", "is not a valid URL", "Incomplete YouTube ID"]

/-- The `any(fake_vid_msg in str(e) for ...)` test (lines 115-116). -/
def isFakeMsg (msg : String) : Bool := fake_vid_msgs.any (fun pat => containsSub msg pat)

/-- The two classified exception types (video_utils.py lines 33-40). -/
inductive DlExn where
  | fakeVideo (msg : String)
  | ipBlocked (msg : String)
deriving DecidableEq

/-- What `ydl.download` does for a given URL is external: either it completes
and leaves a file of some size in the temporary file, or it raises with some
message `str(e)`. -/
inductive DownloadOutcome where
  | ok (fileSize : Nat)
  | raise (msg : String)
deriving DecidableEq

/-- Observable resource events of one `download_video` call and its caller:
creation of the named temporary file, the `ydl.download` request, and
`close()` of the temporary file. -/
inductive Event where
  | openTmp
  | attempt
  | closeTmp
deriving DecidableEq

/-- The message of the exception raised for an invalid identifier
(`f"Invalid video ID: {video_id}"`, line 77). -/
def invalid_id_message (youtube_id : Option String) : String :=
  "Invalid video ID: " ++ (match youtube_id with | some s => s | none => "None")

/-- `download_video` (video_utils.py lines 73-119), returning the result
(classified exception, a live handle `some ()`, or absence `none`) together
with the trace of resource events it performs, in order:

* invalid identifier: raise `FakeVideoException` before the temporary file is
  created or any download is attempted (empty trace);
* `ydl.download` completes: if the file is empty, close and return `None`,
  otherwise return the still-open handle;
* `ydl.download` raises: close the temporary file, then classify the message
  (IP-blocked phrases first, then fake-video phrases, otherwise log and
  return `None`). -/
def download_video (video_id : Option String) (start : Option Int) (end_ : Option Int)
    (outcome : DownloadOutcome) : Except DlExn (Option Unit) × List Event :=
  let _ := start
  let _ := end_
  if is_valid_id video_id = false then
    (.error (.fakeVideo (invalid_id_message video_id)), [])
  else
    match outcome with
    | .ok fileSize =>
        if fileSize = 0 then
          (.ok none, [.openTmp, .attempt, .closeTmp])
        else
          (.ok (some ()), [.openTmp, .attempt])
    | .raise msg =>
        if isBlockedMsg msg then
          (.error (.ipBlocked msg), [.openTmp, .attempt, .closeTmp])
        else if isFakeMsg msg then
          (.error (.fakeVideo msg), [.openTmp, .attempt, .closeTmp])
        else
          (.ok none, [.openTmp, .attempt, .closeTmp])

/-- `get_description` (video_utils.py lines 122-132): start from the title and
append `"\n\n" + description` only when `yt.description` is truthy (present
and non-empty). -/
def get_description (yt : YoutubeResult) : String :=
  match yt.description with
  | none => yt.title
  | some d => if d = "" then yt.title else yt.title ++ "\n\n" ++ d

/-- `class VideoMetadata(BaseModel)` (video_utils.py lines 135-145).
Embedding vectors are opaque numeric arrays; their values never matter here. -/
structure VideoMetadata where
  video_id : String
  description : String
  views : Int
  start_time : Int
  end_time : Int
  video_emb : List Int
  description_emb : List Int
deriving DecidableEq

/-- What `imagebind.embed([description], [download_path])` does is external:
either it returns the two aligned vectors for the single input pair, or it
raises. -/
inductive EmbedOutcome where
  | ok (video : List Int) (description : List Int)
  | raise (msg : String)
deriving DecidableEq

/-- The per-candidate external behaviour one loop iteration of
`search_and_embed_videos` can observe. -/
structure CandidateEnv where
  dl : DownloadOutcome
  embed : EmbedOutcome
deriving DecidableEq

/-- An exception escaping `search_and_embed_videos`: a classified download
exception (the loop has no handler for them), or an exception raised by the
embedding step. -/
inductive RunExn where
  | dl (e : DlExn)
  | embedErr (msg : String)
deriving DecidableEq

/-- `int(num_videos * 1.5)` (main.py line 24): exact IEEE multiplication by
1.5 followed by truncation toward zero, i.e. `⌊3n/2⌋` for a natural `n`. -/
def overfetch_count (num_videos : Nat) : Nat := 3 * num_videos / 2

/-- Modelled from the spec: `ceil(N * 1.5)` — the count §8 of the spec says
the orchestrator requests — written for a natural `N`. -/
def ceil_overfetch (num_videos : Nat) : Nat := (3 * num_videos + 1) / 2

/-- The `for result in results:` loop of `search_and_embed_videos`
(main.py lines 28-51), with the wall clock (`time.time()` at the start of the
`i`-th iteration) and the per-candidate external outcomes passed in as
functions of the iteration index.  Faithfully to the source:

* `start = time.time()` is recorded and later stored as `start_time`;
* the download is windowed to `start=0, end=min(result.length, MAX_DURATION)`;
* a raised classified download exception propagates (no handler in the loop);
* when a handle is obtained, description synthesis / embedding / append run
  inside `try`, and `finally: download_path.close()` emits `closeTmp` on both
  the success and the raising path;
* `if len(video_metas) == num_videos: break` is checked at the end of every
  non-raising iteration.

The result pairs the outcome (exception or collected records) with the trace
of resource events. -/
def runLoop (clock : Nat → Int) (env : Nat → CandidateEnv) (num_videos : Nat) :
    List YoutubeResult → Nat → List VideoMetadata →
    Except RunExn (List VideoMetadata) × List Event
  | [], _, video_metas => (.ok video_metas, [])
  | result :: rest, i, video_metas =>
    let start := clock i
    let dl := download_video (some result.video_id)
      (some 0) (some (min result.length MAX_DURATION)) (env i).dl
    match dl.1 with
    | .error e => (.error (.dl e), dl.2)
    | .ok none =>
        if video_metas.length = num_videos then
          (.ok video_metas, dl.2)
        else
          let next := runLoop clock env num_videos rest (i + 1) video_metas
          (next.1, dl.2 ++ next.2)
    | .ok (some _) =>
        match (env i).embed with
        | .raise msg => (.error (.embedErr msg), dl.2 ++ [.closeTmp])
        | .ok vemb demb =>
            let description := get_description result
            let meta : VideoMetadata :=
              { video_id := result.video_id
                description := description
                views := result.views
                start_time := start
                end_time := MAX_DURATION
                video_emb := vemb
                description_emb := demb }
            let metas2 := video_metas ++ [meta]
            if metas2.length = num_videos then
              (.ok metas2, dl.2 ++ [.closeTmp])
            else
              let next := runLoop clock env num_videos rest (i + 1) metas2
              (next.1, dl.2 ++ [.closeTmp] ++ next.2)

/-- `search_and_embed_videos` (main.py lines 12-53): overfetch via
`search_videos(query, max_results=int(num_videos * 1.5))`, then run the
collection loop starting from the empty list. -/
def search_and_embed_videos (clock : Nat → Int) (env : Nat → CandidateEnv)
    (query : String) (num_videos : Nat) (searchOutcome : SearchOutcome) :
    Except RunExn (List VideoMetadata) × List Event :=
  let results := search_videos query (overfetch_count num_videos) searchOutcome
  runLoop clock env num_videos results 0 []

/-- `wellScoped live tr = true` says the event trace `tr`, started with one
handle live (`live = true`) or none, keeps at most one temporary file open at
any point (`openTmp` only when none is live, `closeTmp` only when one is) and
ends with no live handle. -/
def wellScoped : Bool → List Event → Bool
  | live, [] => !live
  | live, .openTmp :: rest => !live && wellScoped true rest
  | live, .closeTmp :: rest => live && wellScoped false rest
  | live, .attempt :: rest => wellScoped live rest

/-- A concrete candidate used by several concrete evaluations: a valid
11-character identifier and a 50-second duration. -/
def sampleEntry : RawEntry :=
  { id := "abcdefghijk", title := "T", description := none
    duration := some 50, view_count := some 7 }

/-- A per-candidate environment in which the download completes with a
non-empty file and the embedding succeeds. -/
def envOk : CandidateEnv :=
  { dl := .ok 1, embed := .ok [1] [2] }

instance {e a : Type} [DecidableEq e] [DecidableEq a] : DecidableEq (Except e a)
  | .ok x, .ok y => if h : x = y then .isTrue (by simp [h]) else .isFalse (by simp [h])
  | .ok _, .error _ => .isFalse (by simp)
  | .error _, .ok _ => .isFalse (by simp)
  | .error x, .error y => if h : x = y then .isTrue (by simp [h]) else .isFalse (by simp [h])

/-- C4 counterexample: at target count 3 the code requests
`int(3 * 1.5) = 4` results, while `ceil(3 * 1.5) = 5`; the two disagree. -/
theorem overfetch_truncates_not_ceils_at_3 :
    overfetch_count 3 = 4 ∧ ceil_overfetch 3 = 5 ∧
    overfetch_count 3 ≠ ceil_overfetch 3 := by decide

/-- C4 (amended): the orchestrator requests `int(N * 1.5) = ⌊N * 1.5⌋`
results; this equals `ceil(N * 1.5)` exactly for even targets and falls one
short of it for odd targets. -/
theorem overfetch_floor_vs_ceil (n : Nat) :
    overfetch_count (2 * n) = ceil_overfetch (2 * n) ∧
    overfetch_count (2 * n + 1) + 1 = ceil_overfetch (2 * n + 1) := by
  unfold overfetch_count ceil_overfetch
  omega

/-- C5: any identifier that is absent or not exactly 11 characters long makes
`download_video` raise `FakeVideoException` with the `Invalid video ID`
message, on an empty event trace — before the temporary file is created and
before any download attempt is issued. -/
theorem invalid_id_rejected_before_any_attempt (youtube_id : Option String)
    (start end_ : Option Int) (outcome : DownloadOutcome)
    (h : is_valid_id youtube_id = false) :
    download_video youtube_id start end_ outcome
      = (.error (.fakeVideo (invalid_id_message youtube_id)), []) ∧
    Event.attempt ∉ (download_video youtube_id start end_ outcome).2 := by
  unfold download_video
  simp [h]

/-- Witness for C5 at the concrete 5-character identifier `"short"`. -/
theorem invalid_id_rejected_witness :
    download_video (some "short") (some 0) (some 50) (.ok 1)
      = (.error (.fakeVideo (invalid_id_message (some "short"))), []) ∧
    Event.attempt ∉ (download_video (some "short") (some 0) (some 50) (.ok 1)).2 :=
  invalid_id_rejected_before_any_attempt (some "short") (some 0) (some 50) (.ok 1)
    (by decide)

/-- C7: whenever the provider raises during the search, `search_videos`
returns the empty list instead of propagating the exception. -/
theorem search_failure_returns_empty (query : String) (max_results : Nat)
    (msg : String) :
    search_videos query max_results (.raise msg) = [] := rfl

/-- C9 counterexample: a candidate whose body description is present but
empty.  The code yields just the title `"T"`, while the claimed shape
`title ++ blank line ++ body` would be `"T\n\n"`; the two differ. -/
theorem description_present_but_empty_cex :
    get_description { video_id := "abcdefghijk", title := "T",
                      description := some "", length := 50, views := 7 } = "T" ∧
    ("T" : String) ≠ "T" ++ "\n\n" ++ "" := by decide

/-- C9 (amended): description synthesis is a pure function of title and
optional description — two calls agree — and the result is the title,
followed by a blank line and the body text exactly when the body description
is present *and non-empty*; an absent or empty body yields the bare title. -/
theorem get_description_characterization (yt : YoutubeResult) :
    get_description yt = get_description yt ∧
    ((∃ d, yt.description = some d ∧ d ≠ "" ∧
        get_description yt = yt.title ++ "\n\n" ++ d) ∨
     ((yt.description = none ∨ yt.description = some "") ∧
        get_description yt = yt.title)) := by
  refine ⟨rfl, ?_⟩
  rcases hd : yt.description with _ | d
  · exact .inr ⟨.inl rfl, by simp [get_description, hd]⟩
  · by_cases he : d = ""
    · exact .inr ⟨.inr (by simp [hd, he]), by simp [get_description, hd, he]⟩
    · exact .inl ⟨d, rfl, he, by simp [get_description, hd, he]⟩

/-- C10: field defaulting in `search_videos` follows Python truthiness, not
presence: a `duration` equal to 0 is defaulted to `MAX_DURATION` exactly as
if it were absent, and a `view_count` of 0 and an absent one both give
`views = 0`. -/
theorem truthiness_defaulting (entry : RawEntry) (query : String)
    (max_results : Nat) :
    search_videos query max_results (.ok [{ entry with duration := some 0 }])
      = search_videos query max_results (.ok [{ entry with duration := none }]) ∧
    (toYoutubeResult { entry with duration := some 0 }).length = MAX_DURATION ∧
    (toYoutubeResult { entry with duration := none }).length = MAX_DURATION ∧
    (toYoutubeResult { entry with view_count := some 0 }).views = 0 ∧
    (toYoutubeResult { entry with view_count := none }).views = 0 := by
  simp [search_videos, toYoutubeResult, truthyInt]

/-- C6: with a valid identifier, a provider exception is classified in order:
a message containing an IP-blocking / format-unavailable phrase raises
`IPBlockedException`; otherwise a message containing a fake-video phrase
(`Video unavailable`, `is not a valid URL`, `Incomplete YouTube ID`) raises
`FakeVideoException`; any other exception returns absence (`None`) after
closing the temporary file, and a completed download whose file is empty also
returns absence — in every case the temporary file ends closed and the caller
is never crashed by an unclassified error. -/
theorem download_exception_classification (vid : String) (start end_ : Option Int)
    (msg : String) (hv : is_valid_id (some vid) = true) :
    (isBlockedMsg msg = true →
      download_video (some vid) start end_ (.raise msg)
        = (.error (.ipBlocked msg), [.openTmp, .attempt, .closeTmp])) ∧
    (isBlockedMsg msg = false → isFakeMsg msg = true →
      download_video (some vid) start end_ (.raise msg)
        = (.error (.fakeVideo msg), [.openTmp, .attempt, .closeTmp])) ∧
    (isBlockedMsg msg = false → isFakeMsg msg = false →
      download_video (some vid) start end_ (.raise msg)
        = (.ok none, [.openTmp, .attempt, .closeTmp])) ∧
    download_video (some vid) start end_ (.ok 0)
      = (.ok none, [.openTmp, .attempt, .closeTmp]) := by
  unfold download_video
  refine ⟨fun hb => ?_, fun hb hf => ?_, fun hb hf => ?_, ?_⟩ <;> simp [hv, *]

/-- Witness for C6: the valid 11-character identifier `"abcdefghijk"` and the
concrete message `"ERROR: Video unavailable"`, which matches no blocking
phrase and matches a fake-video phrase, so `FakeVideoException` is raised. -/
theorem download_exception_classification_witness :
    download_video (some "abcdefghijk") none none (.raise "ERROR: Video unavailable")
      = (.error (.fakeVideo "ERROR: Video unavailable"),
         [.openTmp, .attempt, .closeTmp]) :=
  (download_exception_classification "abcdefghijk" none none
      "ERROR: Video unavailable" (by decide)).2.1 (by decide) (by decide)

/-- C1 is a code bug, evaluated here: in a run at wall-clock time 1760000000
with one 50-second candidate whose download and embedding succeed, the single
emitted record has `start_time = 1760000000` (the `time.time()` value stored by
`start = time.time()`) and `end_time = 120`, so the claimed invariant
`0 ≤ start_time < end_time ≤ MAX_DURATION` fails: `start_time < end_time` is
false. -/
theorem start_time_is_wall_clock_eval :
    (search_and_embed_videos (fun _ => 1760000000) (fun _ => envOk) "omega" 1
        (.ok [sampleEntry])).1
      = .ok [{ video_id := "abcdefghijk", description := "T", views := 7,
               start_time := 1760000000, end_time := 120,
               video_emb := [1], description_emb := [2] }] ∧
    ¬ ((0 : Int) ≤ 1760000000 ∧ (1760000000 : Int) < 120 ∧
        (120 : Int) ≤ MAX_DURATION) := by decide

/-- C2 is a code bug, evaluated here: for the candidate of duration 50 the
clip window actually used is `[0, min(50, MAX_DURATION)) = [0, 50)`, but the
emitted record carries `end_time = 120`, not 50. -/
theorem end_time_ignores_clip_window_eval :
    (search_and_embed_videos (fun _ => 0) (fun _ => envOk) "omega" 1
        (.ok [sampleEntry])).1
      = .ok [{ video_id := "abcdefghijk", description := "T", views := 7,
               start_time := 0, end_time := 120,
               video_emb := [1], description_emb := [2] }] ∧
    min (toYoutubeResult sampleEntry).length MAX_DURATION = 50 ∧
    (120 : Int) ≠ 50 := by decide

/-- C3 counterexample: with target count 0 and a search that still returns one
candidate whose download and embedding succeed, the loop appends a record
before the `len(video_metas) == num_videos` check can fire, so the output has
length 1 > 0. -/
theorem output_exceeds_zero_target :
    ((search_and_embed_videos (fun _ => 0) (fun _ => envOk) "q" 0
          (.ok [sampleEntry])).1.map List.length) = .ok 1 ∧
    ¬ (1 ≤ 0) := by decide

/-- Case shape of a `download_video` call: either it returns a live handle
and the trace ends with the temporary file open (`[openTmp, attempt]`), or it
returns no live handle and the trace is empty or fully closed. -/
theorem download_shape (video_id : Option String) (start end_ : Option Int)
    (outcome : DownloadOutcome) :
    ((download_video video_id start end_ outcome).1 = .ok (some ()) ∧
     (download_video video_id start end_ outcome).2 = [.openTmp, .attempt]) ∨
    ((∀ u : Unit, (download_video video_id start end_ outcome).1 ≠ .ok (some u)) ∧
     ((download_video video_id start end_ outcome).2 = [] ∨
      (download_video video_id start end_ outcome).2
        = [.openTmp, .attempt, .closeTmp])) := by
  unfold download_video
  split
  · exact .inr ⟨by simp, .inl rfl⟩
  · rcases outcome with fileSize | msg
    · by_cases h0 : fileSize = 0
      · exact .inr ⟨by simp [h0], .inr (by simp [h0])⟩
      · exact .inl (by simp [h0])
    · by_cases hb : isBlockedMsg msg
      · exact .inr ⟨by simp [hb], .inr (by simp [hb])⟩
      · by_cases hf : isFakeMsg msg
        · exact .inr ⟨by simp [hb, hf], .inr (by simp [hb, hf])⟩
        · exact .inr ⟨by simp [hb, hf], .inr (by simp [hb, hf])⟩

/-- Loop invariant for the collection loop: started from an accumulator
strictly below the target, a normally-returning run never exceeds the
target, because appends happen one at a time and the
`len(video_metas) == num_videos` check ends every non-raising iteration. -/
theorem runLoop_length_le (clock : Nat → Int) (env : Nat → CandidateEnv)
    (num : Nat) :
    ∀ (results : List YoutubeResult) (i : Nat) (acc : List VideoMetadata),
      acc.length < num → ∀ out,
        (runLoop clock env num results i acc).1 = .ok out → out.length ≤ num := by
  intro results
  induction results with
  | nil =>
    intro i acc hlt out hout
    simp only [runLoop] at hout
    cases hout
    omega
  | cons r rest ih =>
    intro i acc hlt out hout
    simp only [runLoop] at hout
    rcases hd : (download_video (some r.video_id) (some 0)
        (some (min r.length MAX_DURATION)) (env i).dl).1 with e | o
    · rw [hd] at hout
      simp at hout
    · rcases o with _ | u
      · rw [hd] at hout
        simp only at hout
        by_cases hl : acc.length = num
        · simp [hl] at hout
          cases hout
          omega
        · simp [hl] at hout
          exact ih (i + 1) acc hlt out hout
      · rw [hd] at hout
        dsimp only at hout
        rcases he : (env i).embed with ⟨vemb, demb⟩ | ⟨msg⟩
        · rw [he] at hout
          dsimp only at hout
          by_cases hl :
              (acc ++ [({ video_id := r.video_id, description := get_description r,
                          views := r.views, start_time := clock i,
                          end_time := MAX_DURATION, video_emb := vemb,
                          description_emb := demb } : VideoMetadata)]).length = num
          · rw [if_pos hl] at hout
            simp only [Except.ok.injEq] at hout
            subst hout
            omega
          · rw [if_neg hl] at hout
            refine ih (i + 1) _ ?_ out hout
            simp only [List.length_append, List.length_cons, List.length_nil] at hl ⊢
            omega
        · rw [he] at hout
          simp at hout

/-- C3 (amended): for every target count `num_videos ≥ 1`, however many
candidates the search returns and whichever per-candidate steps succeed or
fail, a normally-returning run of `search_and_embed_videos` yields at most
`num_videos` records.  (At target count 0 the claim fails; see the
counterexample.) -/
theorem output_length_le_target (clock : Nat → Int) (env : Nat → CandidateEnv)
    (query : String) (num_videos : Nat) (searchOutcome : SearchOutcome)
    (h : 1 ≤ num_videos) (out : List VideoMetadata)
    (hout : (search_and_embed_videos clock env query num_videos searchOutcome).1
      = .ok out) :
    out.length ≤ num_videos := by
  refine runLoop_length_le clock env num_videos
    (search_videos query (overfetch_count num_videos) searchOutcome) 0 [] ?_ out hout
  simpa using h

/-- Witness for C3 at target count 1 with one successful candidate. -/
theorem output_length_le_target_witness :
    ([{ video_id := "abcdefghijk", description := "T", views := 7, start_time := 0,
        end_time := 120, video_emb := [1], description_emb := [2] }] :
      List VideoMetadata).length ≤ 1 :=
  output_length_le_target (fun _ => 0) (fun _ => envOk) "q" 1 (.ok [sampleEntry])
    (by decide) _ (by decide)

/-- Concatenating a well-scoped trace after any trace keeps scoping. -/
theorem wellScoped_append (t2 : List Event) (h2 : wellScoped false t2 = true) :
    ∀ (t1 : List Event) (live : Bool), wellScoped live t1 = true →
      wellScoped live (t1 ++ t2) = true := by
  intro t1
  induction t1 with
  | nil =>
    intro live h1
    cases live
    · simpa using h2
    · simp [wellScoped] at h1
  | cons e rest ih =>
    intro live h1
    cases e <;> simp only [wellScoped, Bool.and_eq_true] at h1 ⊢ <;>
      first
        | exact ih live h1
        | exact ⟨h1.1, ih _ h1.2⟩

/-- Every run of the collection loop produces a well-scoped resource trace. -/
theorem runLoop_trace_wellScoped (clock : Nat → Int) (env : Nat → CandidateEnv)
    (num : Nat) :
    ∀ (results : List YoutubeResult) (i : Nat) (acc : List VideoMetadata),
      wellScoped false (runLoop clock env num results i acc).2 = true := by
  intro results
  induction results with
  | nil => intro i acc; simp [runLoop, wellScoped]
  | cons r rest ih =>
    intro i acc
    simp only [runLoop]
    rcases download_shape (some r.video_id) (some 0)
        (some (min r.length MAX_DURATION)) (env i).dl with ⟨h1, h2⟩ | ⟨hne, htr⟩
    · rw [h1, h2]
      dsimp only
      rcases (env i).embed with ⟨vemb, demb⟩ | ⟨msg⟩
      · dsimp only
        split
        · dsimp only
          decide
        · dsimp only
          exact wellScoped_append _ (ih (i + 1) _)
            ([.openTmp, .attempt] ++ [.closeTmp]) false (by decide)
      · dsimp only
        decide
    · rcases hd : (download_video (some r.video_id) (some 0)
          (some (min r.length MAX_DURATION)) (env i).dl).1 with e | o
      · dsimp only
        rcases htr with h | h <;> rw [h] <;> decide
      · rcases o with _ | u
        · dsimp only
          split
          · dsimp only
            rcases htr with h | h <;> rw [h] <;> decide
          · dsimp only
            rcases htr with h | h <;> rw [h]
            · simpa using ih (i + 1) acc
            · exact wellScoped_append _ (ih (i + 1) acc)
                [.openTmp, .attempt, .closeTmp] false (by decide)
        · exact absurd hd (hne u)

/-- C8: in every run of `search_and_embed_videos` — any candidates, any
download / embedding outcomes, including raising ones — the resource-event
trace is well scoped: at most one temporary media file is ever open at a
time, a new one is opened only after the previous one was closed, and every
opened handle is closed by the end of the run (the `finally` block closes it
on the success, soft-failure and exception paths alike). -/
theorem media_handle_well_scoped (clock : Nat → Int) (env : Nat → CandidateEnv)
    (query : String) (num_videos : Nat) (searchOutcome : SearchOutcome) :
    wellScoped false
      (search_and_embed_videos clock env query num_videos searchOutcome).2 = true :=
  runLoop_trace_wellScoped clock env num_videos
    (search_videos query (overfetch_count num_videos) searchOutcome) 0 []
